import Mathlib

/-!
Shallow embedding of `src/scripts/ct_lipro_train.py` (CT-CLIP fine-tuning
script) and proofs about the claims of its specification.

The script is thin orchestration: a classification wrapper around a
pretrained CLIP model, and a training loop that schedules the learning
rate, runs forward/backward passes, clips gradients, and writes
checkpoints.  The loop's control flow and its file-system effects are
embedded as an event trace; the numeric parts (schedule, loss, gradient
clipping, forward pass) are embedded as functions over the reals.
-/

/-- Observable actions of one run of `finetune` (source lines 88-129),
in the order the script performs them.  Numeric tensor values are not
tracked here; the trace records control flow, the scheduler key, the
tokenization call and the file names written. -/
inductive Ev where
  | sched (step : Nat)
  | zeroGrad
  | tokenize (text : String) (maxLength : Nat)
  | forward (epoch i : Nat)
  | lossCompute
  | backward
  | clipGrad (maxNorm : ℚ)
  | optStep
  | logPrint (epoch i : Nat)
  | saveModel (path : String)
  | saveOptim (path : String)
  deriving DecidableEq, Repr

/-- Result of running a piece of the script: the events it emitted, and
the uncaught exception (if any) that aborted it.  The script has no
try/except, so an error ends the run (spec section 7). -/
structure RunResult where
  events : List Ev
  error : Option String
  deriving DecidableEq, Repr

/-- Sequencing with exception propagation: if the first piece raised,
the rest of the script never runs. -/
def RunResult.andThen (r : RunResult) (f : Unit → RunResult) : RunResult :=
  match r.error with
  | some _ => r
  | none => ⟨r.events ++ (f ()).events, (f ()).error⟩

/-- The command-line arguments the training loop reads (from
`parse_arguments`); only the fields the loop's control flow consults.
`save` is an optional output directory (`args.save` may be `None`). -/
structure TrainArgs where
  epochs : Nat
  print_every : Nat
  save_every : Nat
  save : Option String
  deriving DecidableEq, Repr

/-- Source line 116: the periodic checkpoint file name
`checkpoint_-i-_epoch_-epoch+1-.pt` built from the in-epoch batch index
`i` and the 0-based epoch printed 1-indexed. -/
def periodicCheckpointName (i epoch : Nat) : String :=
  "checkpoint_" ++ toString i ++ "_epoch_" ++ toString (epoch + 1) ++ ".pt"

/-- Source line 119: the periodic optimizer-state file name. -/
def periodicOptimName (i epoch : Nat) : String :=
  "optim_" ++ toString i ++ "_epoch_" ++ toString (epoch + 1) ++ ".pt"

/-- Source line 125: the final checkpoint file name, built from the last
value of the loop variable `epoch`. -/
def finalCheckpointName (epoch : Nat) : String :=
  "checkpoint_" ++ toString (epoch + 1) ++ ".pt"

/-- Source line 128: the final optimizer-state file name. -/
def finalOptimName (epoch : Nat) : String :=
  "optim_" ++ toString (epoch + 1) ++ ".pt"

/-- Source lines 92-107: the unconditional part of one loop iteration.
`step = i + epoch * num_batches` (line 92), `scheduler(step)` (93),
`optimizer.zero_grad()` (94), tokenization of the literal empty string
at `max_length=200` (99), forward pass (102), loss (103), backward
(104), `clip_grad_norm_(params, 1.0)` (106), `optimizer.step()` (107). -/
def preEvents (nb epoch i : Nat) : List Ev :=
  [Ev.sched (i + epoch * nb), Ev.zeroGrad, Ev.tokenize "" 200,
   Ev.forward epoch i, Ev.lossCompute, Ev.backward, Ev.clipGrad 1,
   Ev.optStep]

/-- Source lines 110-113: the progress print fires when
`i % args.print_every == 0`. -/
def printEvents (a : TrainArgs) (epoch i : Nat) : List Ev :=
  if i % a.print_every = 0 then [Ev.logPrint epoch i] else []

/-- Source lines 110-120: the conditional tail of one iteration.  Python
raises ZeroDivisionError on `i % 0`; `os.path.join(None, ...)` raises a
TypeError when `args.save` is `None` and the periodic save fires. -/
def iterTail (a : TrainArgs) (epoch i : Nat) : List Ev × Option String :=
  if a.print_every = 0 then ([], some "ZeroDivisionError: integer modulo by zero")
  else if a.save_every = 0 then
    (printEvents a epoch i, some "ZeroDivisionError: integer modulo by zero")
  else if i % a.save_every = 0 then
    match a.save with
    | none => (printEvents a epoch i,
               some "TypeError: expected str, bytes or os.PathLike object, not NoneType")
    | some dir =>
        (printEvents a epoch i ++
          [Ev.saveModel (dir ++ "/" ++ periodicCheckpointName i epoch),
           Ev.saveOptim (dir ++ "/" ++ periodicOptimName i epoch)], none)
  else (printEvents a epoch i, none)

/-- One full iteration of the inner loop (source lines 90-120) for batch
index `i` of epoch `epoch`, with `nb` batches per epoch. -/
def iterResult (a : TrainArgs) (nb epoch i : Nat) : RunResult :=
  ⟨preEvents nb epoch i ++ (iterTail a epoch i).1, (iterTail a epoch i).2⟩

/-- Run `f` on each index of `l` in order, stopping at the first error. -/
def runSeq (f : Nat → RunResult) (l : List Nat) : RunResult :=
  l.foldl (fun r n => r.andThen (fun _ => f n)) ⟨[], none⟩

/-- One epoch of the inner loop: `for i, batch in enumerate(dl)`. -/
def epochResult (a : TrainArgs) (nb epoch : Nat) : RunResult :=
  runSeq (iterResult a nb epoch) (List.range nb)

/-- The outer loop: `for epoch in range(args.epochs)` (source line 88). -/
def loopResult (a : TrainArgs) (nb : Nat) : RunResult :=
  runSeq (epochResult a nb) (List.range a.epochs)

/-- Source lines 122-129: the final save.  It runs only when
`args.save is not None`; inside, it reads the loop variable `epoch`,
which is unbound (Python NameError) when the epoch loop body never ran,
and otherwise holds the last epoch index `args.epochs - 1`. -/
def finalSaveResult (a : TrainArgs) : RunResult :=
  match a.save with
  | none => ⟨[], none⟩
  | some dir =>
      if a.epochs = 0 then ⟨[], some "NameError: name epoch is not defined"⟩
      else ⟨[Ev.saveModel (dir ++ "/" ++ finalCheckpointName (a.epochs - 1)),
             Ev.saveOptim (dir ++ "/" ++ finalOptimName (a.epochs - 1))], none⟩

/-- The whole of `finetune` after setup (source lines 88-129): the
training loop followed by the final save, with `nb = len(dl)` batches
per epoch. -/
def finetuneRun (a : TrainArgs) (nb : Nat) : RunResult :=
  (loopResult a nb).andThen (fun _ => finalSaveResult a)

/- Helper lemmas about the trace combinators. -/

theorem andThen_of_ok (r : RunResult) (f : Unit → RunResult) (h : r.error = none) :
    r.andThen f = ⟨r.events ++ (f ()).events, (f ()).error⟩ := by
  unfold RunResult.andThen
  rw [h]

theorem iterResult_error_none (a : TrainArgs) (nb epoch i : Nat) (dir : String)
    (hpe : a.print_every ≠ 0) (hse : a.save_every ≠ 0) (hdir : a.save = some dir) :
    (iterResult a nb epoch i).error = none := by
  unfold iterResult iterTail
  rw [if_neg hpe, if_neg hse]
  split
  · rw [hdir]
  · rfl

theorem runSeq_error_none_aux (f : Nat → RunResult) (l : List Nat)
    (h : ∀ n ∈ l, (f n).error = none) :
    ∀ acc : List Ev,
      (l.foldl (fun (r : RunResult) n => r.andThen (fun _ => f n))
        (⟨acc, none⟩ : RunResult)).error = none := by
  induction l with
  | nil => intro acc; rfl
  | cons n t ih =>
      intro acc
      have hn : (f n).error = none := h n (List.mem_cons_self n t)
      have hstep : (RunResult.andThen ⟨acc, none⟩ (fun _ => f n)) =
          ⟨acc ++ (f n).events, none⟩ := by
        unfold RunResult.andThen
        simp [hn]
      rw [List.foldl_cons, hstep]
      exact ih (fun m hm => h m (List.mem_cons_of_mem n hm)) _

theorem runSeq_error_none (f : Nat → RunResult) (l : List Nat)
    (h : ∀ n ∈ l, (f n).error = none) : (runSeq f l).error = none :=
  runSeq_error_none_aux f l h []

theorem loopResult_error_none (a : TrainArgs) (nb : Nat) (dir : String)
    (hpe : a.print_every ≠ 0) (hse : a.save_every ≠ 0) (hdir : a.save = some dir) :
    (loopResult a nb).error = none := by
  apply runSeq_error_none
  intro e _
  apply runSeq_error_none
  intro i _
  exact iterResult_error_none a nb e i dir hpe hse hdir

/-- Source line 90: one element yielded by the data loader, a triple of
image inputs, the (unused) report text, and the label vector.  Rationals
stand in for the tensor entries. -/
structure Batch where
  inputs : List ℚ
  report : String
  labels : List ℚ
  deriving DecidableEq, Repr

/-- Source line 99: the text handed to the tokenizer each iteration is
the literal empty string; the in-scope `batch` is never consulted. -/
def textPrompt (_b : Batch) : String := ""

/-- Source line 99: the `max_length` handed to the tokenizer each
iteration is the constant 200, independent of the batch. -/
def textMaxLength (_b : Batch) : Nat := 200

/-- C1 counterexample: running two epochs of three batches each with
`save_every = 5`, the periodic save of epoch 1 (0-based) at in-epoch
batch index 0 has global step 0 + 1 * 3 = 3 (the trace shows `sched 3`),
yet the file written is `checkpoint_0_epoch_2.pt`, not the
`checkpoint_3_epoch_2.pt` that a global-step-based name would require. -/
theorem C1_counterexample :
    Ev.saveModel ("out" ++ "/" ++ "checkpoint_0_epoch_2.pt") ∈
      (finetuneRun ⟨2, 1, 5, some "out"⟩ 3).events ∧
    Ev.saveModel ("out" ++ "/" ++ "checkpoint_3_epoch_2.pt") ∉
      (finetuneRun ⟨2, 1, 5, some "out"⟩ 3).events ∧
    Ev.sched 3 ∈ (finetuneRun ⟨2, 1, 5, some "out"⟩ 3).events := by decide

/-- C1 (corrected): whenever the periodic save fires (in-epoch batch
index `i` with `i % save_every = 0`, output directory configured), the
model and optimizer states are written to
`checkpoint_-i-_epoch_-epoch+1-.pt` and `optim_-i-_epoch_-epoch+1-.pt`
with the epoch printed 1-indexed, where the number after `checkpoint_`
is the in-epoch batch index `i`, not the global step; in particular for
epoch = 2 and in-epoch index 10 the name is `checkpoint_10_epoch_3.pt`. -/
theorem C1_periodic_save_names (a : TrainArgs) (nb epoch i : Nat) (dir : String)
    (hpe : a.print_every ≠ 0) (hse : a.save_every ≠ 0)
    (hfire : i % a.save_every = 0) (hdir : a.save = some dir) :
    Ev.saveModel (dir ++ "/" ++ periodicCheckpointName i epoch) ∈
      (iterResult a nb epoch i).events ∧
    Ev.saveOptim (dir ++ "/" ++ periodicOptimName i epoch) ∈
      (iterResult a nb epoch i).events ∧
    periodicCheckpointName i epoch =
      "checkpoint_" ++ toString i ++ "_epoch_" ++ toString (epoch + 1) ++ ".pt" ∧
    periodicOptimName i epoch =
      "optim_" ++ toString i ++ "_epoch_" ++ toString (epoch + 1) ++ ".pt" ∧
    periodicCheckpointName 10 2 = "checkpoint_10_epoch_3.pt" := by
  unfold iterResult iterTail
  rw [if_neg hpe, if_neg hse, if_pos hfire, hdir]
  refine ⟨?_, ?_, rfl, rfl, by decide⟩
  · simp
  · simp

/-- C1 witness: a concrete firing save with every hypothesis discharged. -/
theorem C1_periodic_save_names_w :
    10 % 5 = 0 ∧
    Ev.saveModel ("out" ++ "/" ++ periodicCheckpointName 10 2) ∈
      (iterResult ⟨3, 1, 5, some "out"⟩ 11 2 10).events :=
  ⟨by decide,
   (C1_periodic_save_names ⟨3, 1, 5, some "out"⟩ 11 2 10 "out"
      (by decide) (by decide) (by decide) rfl).1⟩

/-- C2 counterexample: with `args.save = None` (and one epoch over an
empty loader), the run terminates normally yet persists nothing — the
final checkpoint is not written unconditionally but only when the
output directory is configured. -/
theorem C2_counterexample : finetuneRun ⟨1, 1, 1, none⟩ 0 = ⟨[], none⟩ := rfl

/-- C2 (corrected): after all epochs are exhausted, a final checkpoint
(model state `checkpoint_-epochs-.pt` and optimizer state
`optim_-epochs-.pt` under the configured output directory) is persisted
provided the output directory is configured (`args.save` is not `None`)
and at least one epoch ran; the save is then not gated on any step
counter. -/
theorem C2_final_checkpoint (a : TrainArgs) (nb : Nat) (dir : String)
    (hs : a.save = some dir) (he : 1 ≤ a.epochs)
    (hpe : a.print_every ≠ 0) (hse : a.save_every ≠ 0) :
    (finetuneRun a nb).error = none ∧
    Ev.saveModel (dir ++ "/" ++ finalCheckpointName (a.epochs - 1)) ∈
      (finetuneRun a nb).events ∧
    Ev.saveOptim (dir ++ "/" ++ finalOptimName (a.epochs - 1)) ∈
      (finetuneRun a nb).events ∧
    finalCheckpointName (a.epochs - 1) = "checkpoint_" ++ toString a.epochs ++ ".pt" ∧
    finalOptimName (a.epochs - 1) = "optim_" ++ toString a.epochs ++ ".pt" := by
  have hloop := loopResult_error_none a nb dir hpe hse hs
  have hne : ¬a.epochs = 0 := by omega
  have hfin : finalSaveResult a =
      ⟨[Ev.saveModel (dir ++ "/" ++ finalCheckpointName (a.epochs - 1)),
        Ev.saveOptim (dir ++ "/" ++ finalOptimName (a.epochs - 1))], none⟩ := by
    simp only [finalSaveResult, hs]
    rw [if_neg hne]
  have hrun : finetuneRun a nb =
      ⟨(loopResult a nb).events ++ (finalSaveResult a).events,
       (finalSaveResult a).error⟩ :=
    andThen_of_ok _ _ hloop
  rw [hrun, hfin]
  refine ⟨rfl, by simp, by simp, ?_, ?_⟩
  · unfold finalCheckpointName
    rw [Nat.sub_add_cancel he]
  · unfold finalOptimName
    rw [Nat.sub_add_cancel he]

/-- C2 witness: a one-epoch run over an empty loader with the output
directory set writes the final checkpoint pair. -/
theorem C2_final_checkpoint_w :
    (finetuneRun ⟨1, 1, 1, some "out"⟩ 0).error = none ∧
    Ev.saveModel ("out" ++ "/" ++ finalCheckpointName 0) ∈
      (finetuneRun ⟨1, 1, 1, some "out"⟩ 0).events :=
  ⟨(C2_final_checkpoint ⟨1, 1, 1, some "out"⟩ 0 "out" rfl (by decide)
      (by decide) (by decide)).1,
   (C2_final_checkpoint ⟨1, 1, 1, some "out"⟩ 0 "out" rfl (by decide)
      (by decide) (by decide)).2.1⟩

/-- C5 (confirmed): every iteration of the training loop first keys the
learning-rate schedule on the global step `i + epoch * num_batches` and
zeroes the gradients, and only afterwards performs the tokenization,
forward pass, loss computation, backpropagation, gradient clipping and
optimizer step of that iteration. -/
theorem C5_step_key_and_order (a : TrainArgs) (nb epoch i : Nat) :
    ∃ rest, (iterResult a nb epoch i).events =
      Ev.sched (i + epoch * nb) :: Ev.zeroGrad :: Ev.tokenize "" 200 ::
      Ev.forward epoch i :: Ev.lossCompute :: Ev.backward ::
      Ev.clipGrad 1 :: Ev.optStep :: rest :=
  ⟨(iterTail a epoch i).1, rfl⟩

/-- C8 (confirmed): the text input of every iteration is the
tokenization of the constant empty string at fixed `max_length` 200,
independent of the batch contents, and it precedes the forward pass in
every iteration of every epoch. -/
theorem C8_empty_text_every_iteration :
    (∀ b1 b2 : Batch, textPrompt b1 = textPrompt b2 ∧
        textMaxLength b1 = textMaxLength b2) ∧
    (∀ b : Batch, textPrompt b = "" ∧ textMaxLength b = 200) ∧
    (∀ (a : TrainArgs) (nb epoch i : Nat),
      (iterResult a nb epoch i).events.get? 2 = some (Ev.tokenize "" 200) ∧
      (iterResult a nb epoch i).events.get? 3 = some (Ev.forward epoch i)) :=
  ⟨fun _ _ => ⟨rfl, rfl⟩, fun _ => ⟨rfl, rfl⟩, fun _ _ _ _ => ⟨rfl, rfl⟩⟩

/-- C10 counterexample: an invocation with zero epochs and no output
directory configured terminates normally (no unbound-variable error),
so the failure is not unconditional over all zero-epoch invocations. -/
theorem C10_counterexample : finetuneRun ⟨0, 1, 1, none⟩ 5 = ⟨[], none⟩ := rfl

/-- C10 (corrected): when the output directory is configured and the
epoch count is 0, the epoch loop body never executes, the run emits no
events (in particular writes no checkpoint), and the final save aborts
with the unbound-variable NameError on `epoch`; the final save can
succeed only when at least one epoch ran. -/
theorem C10_zero_epochs (a : TrainArgs) (nb : Nat) (dir : String)
    (h0 : a.epochs = 0) (hs : a.save = some dir) :
    (finetuneRun a nb).events = [] ∧
    (finetuneRun a nb).error = some "NameError: name epoch is not defined" := by
  have hloop : loopResult a nb = ⟨[], none⟩ := by
    unfold loopResult runSeq
    rw [h0]
    rfl
  have hfin : finalSaveResult a =
      ⟨[], some "NameError: name epoch is not defined"⟩ := by
    simp only [finalSaveResult, hs]
    rw [if_pos h0]
  simp [finetuneRun, RunResult.andThen, hloop, hfin]

/-- C10 witness: a concrete zero-epoch invocation with the output
directory set. -/
theorem C10_zero_epochs_w :
    (finetuneRun ⟨0, 7, 7, some "ckpt"⟩ 4).events = [] ∧
    (finetuneRun ⟨0, 7, 7, some "ckpt"⟩ 4).error =
      some "NameError: name epoch is not defined" :=
  C10_zero_epochs ⟨0, 7, 7, some "ckpt"⟩ 4 "ckpt" rfl rfl

/-- One tensor held in a state dict: its shape and its flattened entries
(reals stand in for the float values). -/
structure Param where
  shape : List Nat
  data : List ℝ

/-- A state dictionary as an ordered association of parameter names to
tensors (`self.state_dict()` at source line 33). -/
abbrev StateDict := List (String × Param)

/-- The file system seen by `torch.save` / `torch.load`: an association
of paths to serialized state dicts; saving to a path shadows any
earlier file at that path. -/
abbrev FileSys := List (String × StateDict)

def lookupFile : FileSys → String → Option StateDict
  | [], _ => none
  | (p, sd) :: rest, q => if p = q then some sd else lookupFile rest q

/-- Modelled from the spec: `load_state_dict` (the torch call at source
line 38, whose implementation is not part of this repository) succeeds
exactly when the keys and tensor shapes of the loaded dict match the
module, and fails on a shape mismatch (spec 4.1: load fails if shapes
mismatch).  Parameter values are unconstrained. -/
def shapesMatch : StateDict → StateDict → Bool
  | [], [] => true
  | (k1, p1) :: t1, (k2, p2) :: t2 =>
      k1 == k2 && p1.shape == p2.shape && shapesMatch t1 t2
  | _, _ => false

/-- Source lines 31-33: `save` writes the wrapper state dict to
`file_path`. -/
def ImageLatentsClassifier.save (m : StateDict) (file_path : String)
    (fs : FileSys) : FileSys :=
  (file_path, m) :: fs

/-- Source lines 35-38: `load` reads the state dict at `file_path` and
installs it via `load_state_dict`, which fails on a shape mismatch. -/
def ImageLatentsClassifier.load (m : StateDict) (file_path : String)
    (fs : FileSys) : Except String StateDict :=
  match lookupFile fs file_path with
  | none => Except.error "FileNotFoundError"
  | some sd =>
      if shapesMatch m sd then Except.ok sd
      else Except.error "RuntimeError: size mismatch in load_state_dict"

theorem shapesMatch_refl (m : StateDict) : shapesMatch m m = true := by
  induction m with
  | nil => rfl
  | cons h t ih =>
      obtain ⟨k, p⟩ := h
      simp [shapesMatch, ih]

/-- C3 (confirmed): for every parameter state of the classification
wrapper and every path, `save path` followed by `load path` reproduces
exactly the saved parameter values, and `load` fails when the stored
tensor shapes do not match the module into which it is loaded. -/
theorem C3_save_load_roundtrip (m target : StateDict) (path : String) (fs : FileSys) :
    ImageLatentsClassifier.load m path (ImageLatentsClassifier.save m path fs) =
      Except.ok m ∧
    (shapesMatch target m = false →
      ImageLatentsClassifier.load target path (ImageLatentsClassifier.save m path fs) =
        Except.error "RuntimeError: size mismatch in load_state_dict") := by
  constructor
  · simp [ImageLatentsClassifier.load, ImageLatentsClassifier.save, lookupFile,
      shapesMatch_refl]
  · intro h
    simp [ImageLatentsClassifier.load, ImageLatentsClassifier.save, lookupFile, h]

/-- C3 witness: a concrete round trip and a concrete shape-mismatch
failure on a 3x2 versus 2x3 classifier weight. -/
theorem C3_save_load_roundtrip_w :
    shapesMatch [("classifier.weight", ⟨[2, 3], [0, 0, 0, 0, 0, 0]⟩)]
        [("classifier.weight", ⟨[3, 2], [0, 0, 0, 0, 0, 0]⟩)] = false ∧
    ImageLatentsClassifier.load [("classifier.weight", ⟨[3, 2], [0, 0, 0, 0, 0, 0]⟩)]
        "ckpt.pt"
        (ImageLatentsClassifier.save [("classifier.weight", ⟨[3, 2], [0, 0, 0, 0, 0, 0]⟩)]
          "ckpt.pt" []) =
      Except.ok [("classifier.weight", ⟨[3, 2], [0, 0, 0, 0, 0, 0]⟩)] ∧
    ImageLatentsClassifier.load [("classifier.weight", ⟨[2, 3], [0, 0, 0, 0, 0, 0]⟩)]
        "ckpt.pt"
        (ImageLatentsClassifier.save [("classifier.weight", ⟨[3, 2], [0, 0, 0, 0, 0, 0]⟩)]
          "ckpt.pt" []) =
      Except.error "RuntimeError: size mismatch in load_state_dict" :=
  ⟨rfl,
   (C3_save_load_roundtrip [("classifier.weight", ⟨[3, 2], [0, 0, 0, 0, 0, 0]⟩)]
      [("classifier.weight", ⟨[2, 3], [0, 0, 0, 0, 0, 0]⟩)] "ckpt.pt" []).1,
   (C3_save_load_roundtrip [("classifier.weight", ⟨[3, 2], [0, 0, 0, 0, 0, 0]⟩)]
      [("classifier.weight", ⟨[2, 3], [0, 0, 0, 0, 0, 0]⟩)] "ckpt.pt" []).2 rfl⟩

/-- Modelled from the spec: `cosine_lr` is imported at source line 13
from `src/models/utils`, a module of this repository not included under
`src/`.  Spec 4.3 describes it as a function of
(base_lr, warmup_length, total_steps) returning a per-step learning
rate: a linear ramp from 0 to `base_lr` over the warmup window, then a
cosine decay from `base_lr` toward 0 over the remaining steps,
deterministic in the step index. -/
noncomputable def cosine_lr (base_lr : ℝ) (warmup_length total_steps step : Nat) : ℝ :=
  if step < warmup_length then
    base_lr * step / warmup_length
  else
    base_lr * (1 + Real.cos (Real.pi * ((step - warmup_length : Nat) : ℝ) /
      ((total_steps - warmup_length : Nat) : ℝ))) / 2

theorem cosine_lr_at_warmup (base_lr : ℝ) (w T : Nat) :
    cosine_lr base_lr w T w = base_lr := by
  unfold cosine_lr
  rw [if_neg (lt_irrefl w)]
  simp [Nat.sub_self]
  ring

/-- C4 (confirmed, against the spec-modelled schedule): the learning
rate is the linear ramp `base_lr * step / warmup_length` during warmup,
is strictly increasing up to the end of the warmup window, is
monotonically non-increasing from the warmup boundary to the final
step, and equals 0 at the final step `total_steps`; being a function of
the step index, it is deterministic. -/
theorem C4_schedule_shape (base_lr : ℝ) (w T : Nat)
    (hb : 0 < base_lr) (hwT : w < T) :
    (∀ s, s < w → cosine_lr base_lr w T s = base_lr * s / w) ∧
    (∀ s1 s2, s1 < s2 → s2 ≤ w →
      cosine_lr base_lr w T s1 < cosine_lr base_lr w T s2) ∧
    (∀ s1 s2, w ≤ s1 → s1 ≤ s2 → s2 ≤ T →
      cosine_lr base_lr w T s2 ≤ cosine_lr base_lr w T s1) ∧
    cosine_lr base_lr w T T = 0 := by
  refine ⟨?_, ?_, ?_, ?_⟩
  · intro s hs
    unfold cosine_lr
    rw [if_pos hs]
  · intro s1 s2 h12 h2w
    have hw0 : 0 < w := by omega
    have h1w : s1 < w := by omega
    have hwR : (0:ℝ) < w := by exact_mod_cast hw0
    have hs12 : (s1 : ℝ) < s2 := by exact_mod_cast h12
    by_cases h2 : s2 < w
    · unfold cosine_lr
      rw [if_pos h1w, if_pos h2]
      have hnum : base_lr * (s1 : ℝ) < base_lr * s2 := by nlinarith
      exact div_lt_div_of_pos_right hnum hwR
    · have h2eq : s2 = w := by omega
      rw [h2eq, cosine_lr_at_warmup]
      unfold cosine_lr
      rw [if_pos h1w]
      have hs1w : (s1 : ℝ) < w := by exact_mod_cast h1w
      rw [div_lt_iff₀ hwR]
      nlinarith
  · intro s1 s2 hw1 h12 h2T
    have hTw : 0 < T - w := by omega
    have hnot1 : ¬ s1 < w := by omega
    have hnot2 : ¬ s2 < w := by omega
    unfold cosine_lr
    rw [if_neg hnot1, if_neg hnot2]
    have hD : (0:ℝ) < ((T - w : ℕ) : ℝ) := by exact_mod_cast hTw
    have he12 : ((s1 - w : ℕ) : ℝ) ≤ ((s2 - w : ℕ) : ℝ) := by
      exact_mod_cast Nat.sub_le_sub_right h12 w
    have he2D : ((s2 - w : ℕ) : ℝ) ≤ ((T - w : ℕ) : ℝ) := by
      exact_mod_cast Nat.sub_le_sub_right h2T w
    have he1nn : (0:ℝ) ≤ ((s1 - w : ℕ) : ℝ) := by positivity
    have hx1nn : 0 ≤ Real.pi * ((s1 - w : ℕ) : ℝ) / ((T - w : ℕ) : ℝ) := by positivity
    have hx2pi : Real.pi * ((s2 - w : ℕ) : ℝ) / ((T - w : ℕ) : ℝ) ≤ Real.pi := by
      rw [div_le_iff₀ hD]
      nlinarith [Real.pi_pos]
    have hx12 : Real.pi * ((s1 - w : ℕ) : ℝ) / ((T - w : ℕ) : ℝ) ≤
        Real.pi * ((s2 - w : ℕ) : ℝ) / ((T - w : ℕ) : ℝ) := by
      gcongr
    have hcos := Real.cos_le_cos_of_nonneg_of_le_pi hx1nn hx2pi hx12
    have hmul : base_lr * (1 + Real.cos (Real.pi * ((s2 - w : ℕ) : ℝ) / ((T - w : ℕ) : ℝ))) ≤
        base_lr * (1 + Real.cos (Real.pi * ((s1 - w : ℕ) : ℝ) / ((T - w : ℕ) : ℝ))) := by
      nlinarith
    linarith
  · unfold cosine_lr
    rw [if_neg (by omega : ¬ T < w)]
    have hTw : ((T - w : ℕ) : ℝ) ≠ 0 := by
      have : 0 < T - w := by omega
      exact_mod_cast Nat.pos_iff_ne_zero.mp this
    have harg : Real.pi * ((T - w : ℕ) : ℝ) / ((T - w : ℕ) : ℝ) = Real.pi := by
      field_simp
    rw [harg, Real.cos_pi]
    norm_num

/-- C4 witness: a concrete schedule with base rate 1, warmup 2, total 5
steps, whose value at the final step is 0. -/
theorem C4_schedule_shape_w :
    ((0:ℝ) < 1 ∧ (2:Nat) < 5) ∧ cosine_lr 1 2 5 5 = 0 :=
  ⟨⟨by norm_num, by norm_num⟩,
   (C4_schedule_shape 1 2 5 (by norm_num) (by norm_num)).2.2.2⟩

/-- Source lines 77-80: the fixed 18-element class-weight tensor passed
as `pos_weight` to the loss. -/
noncomputable def classWeightsR : List ℝ :=
  [9.211362733, 2.384068466, 8.295479204, 32.8629776, 2.992233613,
   6.064870808, 3.176470588, 4.187083754, 3.022222222, 1.216071737,
   1.677849552, 3.152851834, 7.123261694, 18.16629381, 13.8480647,
   6.335045662, 10.81701149, 13.40695067]

/-- The logistic sigmoid used by the binary cross-entropy with logits. -/
noncomputable def sigmoid (x : ℝ) : ℝ := 1 / (1 + Real.exp (-x))

theorem sigmoid_pos (x : ℝ) : 0 < sigmoid x := by
  unfold sigmoid
  positivity

theorem sigmoid_lt_one (x : ℝ) : sigmoid x < 1 := by
  unfold sigmoid
  rw [div_lt_one (by positivity)]
  linarith [Real.exp_pos (-x)]

/-- Modelled from the spec: one element of
`BCEWithLogitsLoss(pos_weight=w)` (the torch loss built at source line
81, whose implementation is not part of this repository), per its
documented formula: the positive class term is scaled by the class
weight `w`. -/
noncomputable def bceTerm (w y x : ℝ) : ℝ :=
  -(w * y * Real.log (sigmoid x) + (1 - y) * Real.log (1 - sigmoid x))

noncomputable def bceTerms (ws ys xs : List ℝ) : List ℝ :=
  ((ws.zip ys).zip xs).map (fun p => bceTerm p.1.1 p.1.2 p.2)

/-- The mean-reduced weighted binary cross-entropy with logits applied
at source line 103 to the logits and labels. -/
noncomputable def bceWithLogitsLoss (ws ys xs : List ℝ) : ℝ :=
  (bceTerms ws ys xs).sum / (bceTerms ws ys xs).length

theorem classWeightsR_pos : ∀ w ∈ classWeightsR, 0 < w := by
  intro w hw
  simp only [classWeightsR, List.mem_cons, List.not_mem_nil, or_false] at hw
  rcases hw with h | h | h | h | h | h | h | h | h | h | h | h | h | h | h | h | h | h <;>
    rw [h] <;> norm_num

theorem bceTerm_nonneg (w y x : ℝ) (hw : 0 < w) (hy : y = 0 ∨ y = 1) :
    0 ≤ bceTerm w y x := by
  have h0 := sigmoid_pos x
  have h1 := sigmoid_lt_one x
  have hlogs : Real.log (sigmoid x) ≤ 0 := Real.log_nonpos h0.le h1.le
  have hlog1 : Real.log (1 - sigmoid x) ≤ 0 :=
    Real.log_nonpos (by linarith) (by linarith)
  unfold bceTerm
  rcases hy with h | h <;> subst h
  · nlinarith
  · nlinarith [mul_nonneg hw.le (neg_nonneg.mpr hlogs)]

/-- C6 (confirmed): for every label vector of length 18 with binary
entries and every logits vector, the weighted multi-label binary
cross-entropy against the fixed positive class-weight vector is a
well-defined real scalar (each logarithm receives a strictly positive
argument, since the sigmoid lies strictly between 0 and 1) and is
non-negative. -/
theorem C6_weighted_loss_nonneg (ys xs : List ℝ)
    (_hylen : ys.length = 18) (_hxlen : xs.length = 18)
    (hy : ∀ y ∈ ys, y = 0 ∨ y = 1) :
    (∀ x, 0 < sigmoid x ∧ sigmoid x < 1) ∧
    0 ≤ bceWithLogitsLoss classWeightsR ys xs := by
  refine ⟨fun x => ⟨sigmoid_pos x, sigmoid_lt_one x⟩, ?_⟩
  unfold bceWithLogitsLoss
  apply div_nonneg
  · apply List.sum_nonneg
    intro t ht
    unfold bceTerms at ht
    obtain ⟨p, hp, rfl⟩ := List.mem_map.mp ht
    obtain ⟨⟨pw, py⟩, px⟩ := p
    have h1 := List.of_mem_zip hp
    have h2 := List.of_mem_zip h1.1
    exact bceTerm_nonneg _ _ _ (classWeightsR_pos _ h2.1) (hy _ h2.2)
  · positivity

/-- C6 witness: the all-ones label vector against zero logits. -/
theorem C6_weighted_loss_nonneg_w :
    (List.replicate 18 (1:ℝ)).length = 18 ∧
    (∀ y ∈ List.replicate 18 (1:ℝ), y = 0 ∨ y = 1) ∧
    0 ≤ bceWithLogitsLoss classWeightsR (List.replicate 18 (1:ℝ)) (List.replicate 18 0) :=
  ⟨by simp,
   by intro y hy; right; exact List.eq_of_mem_replicate hy,
   (C6_weighted_loss_nonneg (List.replicate 18 1) (List.replicate 18 0) (by simp) (by simp)
      (by intro y hy; right; exact List.eq_of_mem_replicate hy)).2⟩

/-- Sum of squared entries of a gradient vector. -/
noncomputable def sumSq : List ℝ → ℝ
  | [] => 0
  | x :: t => x * x + sumSq t

/-- Euclidean norm of the flattened gradient vector, the total norm that
`torch.nn.utils.clip_grad_norm_` computes. -/
noncomputable def l2norm (g : List ℝ) : ℝ := Real.sqrt (sumSq g)

/-- Source line 106: the fixed clipping ceiling 1.0. -/
def gradClipCeiling : ℝ := 1

/-- Modelled from the spec: `clip_grad_norm_` (the torch utility called
at source line 106, whose implementation is not part of this
repository) rescales the gradient vector by `c / norm` when its total
norm exceeds the ceiling `c`, and leaves it unchanged otherwise
(spec 4.2 step 8: clip gradient norm to a fixed ceiling). -/
noncomputable def clip_grad_norm (c : ℝ) (g : List ℝ) : List ℝ :=
  if c < l2norm g then g.map (fun x => x * (c / l2norm g)) else g

theorem sumSq_nonneg (g : List ℝ) : 0 ≤ sumSq g := by
  induction g with
  | nil => simp [sumSq]
  | cons a t ih => simp only [sumSq]; nlinarith [mul_self_nonneg a]

theorem sumSq_map_mul (s : ℝ) (g : List ℝ) :
    sumSq (g.map (fun x => x * s)) = sumSq g * (s * s) := by
  induction g with
  | nil => simp [sumSq]
  | cons a t ih => simp only [List.map_cons, sumSq, ih]; ring

theorem l2norm_map_mul (s : ℝ) (hs : 0 ≤ s) (g : List ℝ) :
    l2norm (g.map (fun x => x * s)) = l2norm g * s := by
  unfold l2norm
  rw [sumSq_map_mul, Real.sqrt_mul (sumSq_nonneg g), Real.sqrt_mul_self hs]

theorem clip_grad_norm_le (c : ℝ) (hc : 0 < c) (g : List ℝ) :
    l2norm (clip_grad_norm c g) ≤ c := by
  unfold clip_grad_norm
  split_ifs with h
  · have hn : 0 < l2norm g := lt_trans hc h
    rw [l2norm_map_mul _ (by positivity) g]
    have heq : l2norm g * (c / l2norm g) = c := by field_simp
    rw [heq]
  · exact le_of_not_lt h

/-- C7 (confirmed): the gradient norm is clipped to the fixed ceiling
1.0 after backpropagation and before the optimizer step of every
iteration, and the norm of any clipped gradient vector never exceeds
that ceiling. -/
theorem C7_grad_clip :
    gradClipCeiling = 1 ∧
    (∀ g : List ℝ, l2norm (clip_grad_norm gradClipCeiling g) ≤ gradClipCeiling) ∧
    (∀ (a : TrainArgs) (nb epoch i : Nat),
      (iterResult a nb epoch i).events.get? 5 = some Ev.backward ∧
      (iterResult a nb epoch i).events.get? 6 = some (Ev.clipGrad 1) ∧
      (iterResult a nb epoch i).events.get? 7 = some Ev.optStep) :=
  ⟨rfl,
   fun g => clip_grad_norm_le gradClipCeiling one_pos g,
   fun _ _ _ _ => ⟨rfl, rfl, rfl⟩⟩

/-- Modelled from the spec: a deterministic pseudo-random generator
state transition (the framework RNG behind `nn.Dropout`, not part of
this repository), as a 64-bit linear congruential step. -/
def lcg (s : Nat) : Nat :=
  (6364136223846793005 * s + 1442695040888963407) % (2 ^ 64)

/-- Modelled from the spec: `n` Bernoulli drop decisions drawn from the
seeded generator, at the drop probability 0.3 of the wrapper's
`nn.Dropout` (source line 19, `dropout_prob=0.3`); returns the mask and
the advanced generator state. -/
def dropMask : Nat → Nat → List Bool × Nat
  | 0, s => ([], s)
  | n + 1, s =>
      let s1 := lcg s
      let rest := dropMask n s1
      ((decide (s1 % 10 < 3)) :: rest.1, rest.2)

/-- Dropout in training mode: dropped entries become 0, kept entries
are rescaled by 1 / (1 - 0.3) = 10 / 7. -/
noncomputable def dropoutApply (mask : List Bool) (v : List ℝ) : List ℝ :=
  List.zipWith (fun d x => if d then 0 else x * (10 / 7 : ℝ)) mask v

/-- Source line 27: elementwise ReLU applied to the image latents. -/
noncomputable def reluVec (v : List ℝ) : List ℝ := v.map (fun x => max x 0)

noncomputable def dotR (u v : List ℝ) : ℝ := (List.zipWith (fun a b => a * b) u v).sum

/-- Source line 21: the linear classification head mapping the latent
vector to per-class logits. -/
noncomputable def linearMap (W : List (List ℝ)) (b : List ℝ) (x : List ℝ) : List ℝ :=
  List.zipWith (fun row bi => dotR row x + bi) W b

/-- Source lines 23-29: the wrapper forward pass.  The pretrained model
`tm` maps the text tokens and the image to the image latents
(`return_latents=True`); ReLU, then seeded dropout, then the linear
head produce the logits.  All randomness is the dropout mask drawn from
the generator seeded with `seed`. -/
noncomputable def classifierForward (tm : List Nat → List ℝ → List ℝ)
    (W : List (List ℝ)) (b : List ℝ)
    (text : List Nat) (image : List ℝ) (seed : Nat) : List ℝ :=
  linearMap W b
    (dropoutApply (dropMask (reluVec (tm text image)).length (lcg seed)).1
      (reluVec (tm text image)))

/-- Two successive evaluations of one training-step forward pass, each
starting from the same fixed seed and the same fixed inputs. -/
noncomputable def twoRunLogits (tm : List Nat → List ℝ → List ℝ)
    (W : List (List ℝ)) (b : List ℝ)
    (text : List Nat) (image : List ℝ) (seed : Nat) : List ℝ × List ℝ :=
  (classifierForward tm W b text image seed,
   classifierForward tm W b text image seed)

/-- C9 (confirmed): with a fixed random seed and fixed inputs, two
successive runs of the training-step forward pass produce identical
logits — the embedded forward pass is a pure function of the
parameters, the inputs and the seed, so the two components of
`twoRunLogits` coincide for every model, input and seed. -/
theorem C9_forward_deterministic (tm : List Nat → List ℝ → List ℝ)
    (W : List (List ℝ)) (b : List ℝ)
    (text : List Nat) (image : List ℝ) (seed : Nat) :
    (twoRunLogits tm W b text image seed).1 =
      (twoRunLogits tm W b text image seed).2 := rfl
